import Mathlib

/-!
Verification of the usage/billing core of `backend/server.ts`.

The backend is shallowly embedded: every definition below mirrors one
function of `backend/server.ts` (names are kept).  Stateful pieces are
modelled by explicit state passing over a `World` holding the two storage
backends:

* the local file store (`usage.json`, a map from userId to `UsageRecord`)
  is modelled as `String → Option UsageRecord`;
* the remote Supabase table `app_usage` (schema `supabase/schema.sql`,
  appended to the source file) is modelled as `String → Option DbUsageRow`
  together with a reachability flag `remoteUp`: when `remoteUp = false`
  every remote operation fails, which is how the code's thrown
  configuration/network/query errors surface to its `try`/`catch` blocks.

External collaborators (the Reve image provider, the LongCat prompt
optimizer, the Lemon Squeezy checkout API, HMAC-SHA256) are modelled at
their call/response boundary as oracle parameters, exactly as the spec
describes them ("specified only by their call/response contract").
Timestamps (`new Date().toISOString()`) are an explicit `now : String`
parameter.
-/

/-- Billing status enum of a usage record (`type BillingStatus`). -/
inductive BillingStatus : Type
  | free
  | active
deriving Repr, DecidableEq

/-- Per-user usage record (`type UsageRecord`). `generatedCount` is an
integer as in the source; optional TS fields become `Option`. -/
structure UsageRecord : Type where
  userId : String
  generatedCount : Int
  billingStatus : BillingStatus
  lemonCustomerId : Option String
  lemonSubscriptionId : Option String
  updatedAt : String
deriving Repr, DecidableEq

/-- Row of the Supabase `app_usage` table (`type DbUsageRow`). -/
structure DbUsageRow : Type where
  user_id : String
  generated_count : Int
  billing_status : BillingStatus
  lemon_customer_id : Option String
  lemon_subscription_id : Option String
  updated_at : String
deriving Repr, DecidableEq

/-- Conversion of a database row to a usage record
(`mapDbUsageRowToUsageRecord`); `?? undefined` becomes the identity on
`Option`. -/
def mapDbUsageRowToUsageRecord (row : DbUsageRow) : UsageRecord :=
  { userId := row.user_id
    generatedCount := row.generated_count
    billingStatus := row.billing_status
    lemonCustomerId := row.lemon_customer_id
    lemonSubscriptionId := row.lemon_subscription_id
    updatedAt := row.updated_at }

/-- Payload the code upserts into `app_usage` for user `userId` from a
stamped record `next` (the object literal in `updateUsageRecord`; note
`user_id` is taken from the argument `userId`, not from `next.userId`). -/
def rowOfRecord (userId : String) (next : UsageRecord) : DbUsageRow :=
  { user_id := userId
    generated_count := next.generatedCount
    billing_status := next.billingStatus
    lemon_customer_id := next.lemonCustomerId
    lemon_subscription_id := next.lemonSubscriptionId
    updated_at := next.updatedAt }

/-- Combined storage state: remote reachability, the remote table, and the
local JSON file's `users` map. -/
structure World : Type where
  remoteUp : Bool
  remoteDb : String → Option DbUsageRow
  localDb : String → Option UsageRecord

/-- Ambient configuration relevant to the storage layer: whether the
Supabase client was successfully constructed at startup (`supabase !==
null`) and whether `LONGCAT_API_KEY` is set. -/
structure Config : Type where
  supabase : Bool
  hasLongcatKey : Bool

/-- Point update of a string-keyed map (the `store.users[userId] = next`
assignments and the database upsert). -/
def setAt {α : Type} (db : String → Option α) (u : String) (r : α) :
    String → Option α :=
  fun v => if v = u then some r else db v

theorem setAt_same {α : Type} (db : String → Option α) (u : String) (r : α) :
    setAt db u r u = some r := by simp [setAt]

theorem setAt_other {α : Type} (db : String → Option α) (u : String) (r : α)
    {v : String} (h : v ≠ u) : setAt db u r v = db v := by simp [setAt, h]

/-- Free-generation allowance (`const FREE_IMAGE_LIMIT = 1`). -/
def FREE_IMAGE_LIMIT : Int := 1

/-- Caller-facing quota projection of a record (the return value of
`buildUsageView`). -/
structure UsageView : Type where
  userId : String
  generatedCount : Int
  freeLimit : Int
  remainingFree : Int
  billingStatus : BillingStatus
  hasActiveSubscription : Bool
  canGenerate : Bool
deriving Repr, DecidableEq

/-- Pure derivation of the quota view from a stored record
(`buildUsageView`). -/
def buildUsageView (record : UsageRecord) : UsageView :=
  let remainingFree := max 0 (FREE_IMAGE_LIMIT - record.generatedCount)
  let hasActiveSubscription := decide (record.billingStatus = .active)
  let canGenerate := hasActiveSubscription || decide (remainingFree > 0)
  { userId := record.userId
    generatedCount := record.generatedCount
    freeLimit := FREE_IMAGE_LIMIT
    remainingFree := remainingFree
    billingStatus := record.billingStatus
    hasActiveSubscription := hasActiveSubscription
    canGenerate := canGenerate }

/-- Default record created on first access (`getOrCreateLocalUsageRecord`'s
`created` object and `updateLocalUsageRecord`'s fallback literal). -/
def defaultUsageRecord (userId now : String) : UsageRecord :=
  { userId := userId
    generatedCount := 0
    billingStatus := .free
    lemonCustomerId := none
    lemonSubscriptionId := none
    updatedAt := now }

/-- Local-file read-or-create (`getOrCreateLocalUsageRecord`): an existing
record is returned as is; otherwise the default record is created,
persisted, and returned. -/
def getOrCreateLocalUsageRecord (store : String → Option UsageRecord)
    (now userId : String) : UsageRecord × (String → Option UsageRecord) :=
  match store userId with
  | some existing => (existing, store)
  | none =>
      let created := defaultUsageRecord userId now
      (created, setAt store userId created)

/-- Local-file read-modify-write (`updateLocalUsageRecord`): reads the
current record or a fresh default, applies the updater, overwrites
`updatedAt` with the current time, persists and returns the new record. -/
def updateLocalUsageRecord (store : String → Option UsageRecord)
    (now userId : String) (updater : UsageRecord → UsageRecord) :
    UsageRecord × (String → Option UsageRecord) :=
  let current := (store userId).getD (defaultUsageRecord userId now)
  let next := { updater current with updatedAt := now }
  (next, setAt store userId next)

/-- Supabase select by `user_id` (`.maybeSingle()` in
`getOrCreateSupabaseUsageRecord`); a thrown `fetchError` is `.error`. -/
def sbSelectUsage (w : World) (userId : String) :
    Except Unit (Option DbUsageRow) :=
  if w.remoteUp then .ok (w.remoteDb userId) else .error ()

/-- Default row the code inserts on first remote access (the `.insert`
object literal in `getOrCreateSupabaseUsageRecord`; the lemon columns take
their schema default `null`). -/
def defaultDbRow (userId now : String) : DbUsageRow :=
  { user_id := userId
    generated_count := 0
    billing_status := .free
    lemon_customer_id := none
    lemon_subscription_id := none
    updated_at := now }

/-- Supabase insert of the default row (`.insert(...)` in
`getOrCreateSupabaseUsageRecord`); returns the row echoed by `.single()`. -/
def sbInsertDefaultUsage (w : World) (userId now : String) :
    (Except Unit DbUsageRow) × World :=
  if w.remoteUp then
    let row := defaultDbRow userId now
    (.ok row, { w with remoteDb := setAt w.remoteDb userId row })
  else (.error (), w)

/-- Supabase upsert keyed on `user_id` (the `.upsert(...)` call in
`updateUsageRecord`); returns the row echoed by `.single()`. -/
def sbUpsertUsage (w : World) (userId : String) (next : UsageRecord) :
    (Except Unit DbUsageRow) × World :=
  if w.remoteUp then
    let row := rowOfRecord userId next
    (.ok row, { w with remoteDb := setAt w.remoteDb userId row })
  else (.error (), w)

/-- Remote read-or-create (`getOrCreateSupabaseUsageRecord`, called only
when the client exists): select, else insert the default row; any remote
error propagates as `.error`. -/
def getOrCreateSupabaseUsageRecord (now : String) (w : World)
    (userId : String) : (Except Unit UsageRecord) × World :=
  match sbSelectUsage w userId with
  | .error e => (.error e, w)
  | .ok (some row) => (.ok (mapDbUsageRowToUsageRecord row), w)
  | .ok none =>
      match sbInsertDefaultUsage w userId now with
      | (.error e, w1) => (.error e, w1)
      | (.ok row, w1) => (.ok (mapDbUsageRowToUsageRecord row), w1)

/-- Record fetch with silent fallback (`getUsageRecord`): local store when
Supabase is unconfigured, otherwise try remote and on any remote error
fall back to the local store.  Total: no error reaches the caller. -/
def getUsageRecord (cfg : Config) (now : String) (w : World)
    (userId : String) : UsageRecord × World :=
  if cfg.supabase then
    match getOrCreateSupabaseUsageRecord now w userId with
    | (.ok remote, w1) => (remote, w1)
    | (.error _, w1) =>
        let (r, l) := getOrCreateLocalUsageRecord w1.localDb now userId
        (r, { w1 with localDb := l })
  else
    let (r, l) := getOrCreateLocalUsageRecord w.localDb now userId
    (r, { w with localDb := l })

/-- Record update with silent fallback (`updateUsageRecord`): read current
(via `getUsageRecord`), apply the updater, stamp `updatedAt`, upsert
remotely; on any remote error apply the update to the local store
instead.  Total: no error reaches the caller. -/
def updateUsageRecord (cfg : Config) (now : String) (w : World)
    (userId : String) (updater : UsageRecord → UsageRecord) :
    UsageRecord × World :=
  if cfg.supabase then
    let (current, w1) := getUsageRecord cfg now w userId
    let next := { updater current with updatedAt := now }
    match sbUpsertUsage w1 userId next with
    | (.ok updated, w2) => (mapDbUsageRowToUsageRecord updated, w2)
    | (.error _, w2) =>
        let (r, l) := updateLocalUsageRecord w2.localDb now userId updater
        (r, { w2 with localDb := l })
  else
    let (r, l) := updateLocalUsageRecord w.localDb now userId updater
    (r, { w with localDb := l })

/-- Quota view for a user (`getUsageView`). -/
def getUsageView (cfg : Config) (now : String) (w : World) (userId : String) :
    UsageView × World :=
  let (record, w1) := getUsageRecord cfg now w userId
  (buildUsageView record, w1)

/-- Post-success usage increment (`markGenerationUsage`). -/
def markGenerationUsage (cfg : Config) (now : String) (w : World)
    (userId : String) : UsageRecord × World :=
  updateUsageRecord cfg now w userId
    (fun record => { record with generatedCount := record.generatedCount + 1 })

/-- Webhook-driven billing transition (`setBillingStatus`). -/
def setBillingStatus (cfg : Config) (now : String) (w : World)
    (userId : String) (billingStatus : BillingStatus) : UsageRecord × World :=
  updateUsageRecord cfg now w userId
    (fun record => { record with billingStatus := billingStatus })

/-- C1: `buildUsageView` is a pure function of the record with
`remainingFree = max 0 (FREE_LIMIT - generatedCount)`,
`hasActiveSubscription ↔ billingStatus = active`, and
`canGenerate ↔ hasActiveSubscription ∨ remainingFree > 0`; consequently a
record under the free limit or with an active subscription can generate,
and a record at or over the limit with status `free` cannot. -/
theorem buildUsageView_spec (r : UsageRecord) :
    (buildUsageView r).remainingFree
        = max 0 (FREE_IMAGE_LIMIT - r.generatedCount)
    ∧ ((buildUsageView r).hasActiveSubscription = true
        ↔ r.billingStatus = .active)
    ∧ ((buildUsageView r).canGenerate = true
        ↔ (buildUsageView r).hasActiveSubscription = true
          ∨ (buildUsageView r).remainingFree > 0)
    ∧ (r.generatedCount < FREE_IMAGE_LIMIT ∨ r.billingStatus = .active
        → (buildUsageView r).canGenerate = true)
    ∧ (FREE_IMAGE_LIMIT ≤ r.generatedCount ∧ r.billingStatus = .free
        → (buildUsageView r).canGenerate = false) := by
  refine ⟨rfl, by simp [buildUsageView], by simp [buildUsageView], ?_, ?_⟩
  · rintro (h | h)
    · simp [buildUsageView]
      omega
    · simp [buildUsageView, h]
  · rintro ⟨h1, h2⟩
    simp [buildUsageView, h2]
    omega

/-- Witness for C1 at concrete records: a fresh free record can generate,
and an exhausted free record cannot. -/
theorem buildUsageView_spec_witness :
    (buildUsageView (defaultUsageRecord "u1" "t0")).canGenerate = true
    ∧ (buildUsageView
        { defaultUsageRecord "u1" "t0" with generatedCount := 1 }).canGenerate
        = false :=
  ⟨(buildUsageView_spec (defaultUsageRecord "u1" "t0")).2.2.2.1
      (Or.inl (by decide)),
   (buildUsageView_spec
      { defaultUsageRecord "u1" "t0" with generatedCount := 1 }).2.2.2.2
      ⟨by decide, rfl⟩⟩

/-! ## Webhook pipeline: JSON probing, signature verification, dispatch -/

/-- JSON values as produced by `JSON.parse` on the webhook body. -/
inductive JsonVal : Type
  | str (s : String)
  | num (n : Int)
  | bool (b : Bool)
  | null
  | arr (elems : List JsonVal)
  | obj (fields : List (String × JsonVal))

/-- Object test (`isObject`): in JavaScript `typeof value === "object"` is
true for plain objects and for arrays, and `value != null` excludes only
`null`; strings, numbers and booleans are not objects. -/
def isObject : JsonVal → Bool
  | .obj _ => true
  | .arr _ => true
  | _ => false

/-- First binding of a key in a parsed JSON object (own properties; the
fixed key paths probed by the webhook code are never prototype
properties, so own-property lookup is exact for every probed key). -/
def lookupField : List (String × JsonVal) → String → Option JsonVal
  | [], _ => none
  | (k, v) :: rest, key => if k = key then some v else lookupField rest key

/-- Decimal parse of a nonempty all-digit character list (used for the
canonical-array-index test below; structural so it evaluates in the
kernel). -/
def parseNatChars (cs : List Char) : Option Nat :=
  match cs with
  | [] => none
  | _ :: _ => go cs 0
where
  go : List Char → Nat → Option Nat
    | [], acc => some acc
    | c :: rest, acc =>
        if c.isDigit then go rest (acc * 10 + (c.toNat - 48)) else none

/-- Property access `part in current` / `current[part]` combined: `none`
when the property is absent.  On arrays, `length` and canonical numeric
indices are the accessible properties. -/
def jsGetProp : JsonVal → String → Option JsonVal
  | .obj fields, key => lookupField fields key
  | .arr elems, key =>
      if key = "length" then some (.num (Int.ofNat elems.length))
      else
        match parseNatChars key.data with
        | some n => if toString n = key then elems[n]? else none
        | none => none
  | _, _ => none

/-- Ordered descent through nested objects (`readNestedString`): walk the
path while the current value is an object holding the key, then return the
final value only when it is a string. -/
def readNestedString (obj : JsonVal) : List String → Option String
  | [] =>
      match obj with
      | .str s => some s
      | _ => none
  | part :: rest =>
      if isObject obj then
        match jsGetProp obj part with
        | some next => readNestedString next rest
        | none => none
      else none

/-- JavaScript truthiness of an optional string (`if (fromMetaCustom)`):
false exactly for `null` and the empty string. -/
def truthyStr : Option String → Bool
  | none => false
  | some s => s ≠ ""

/-- Webhook user-id probe (`extractLemonUserId`): `meta.custom_data.user_id`,
then `data.attributes.custom_data.user_id` — each taken only when truthy —
then `data.attributes.user_id` returned as is. -/
def extractLemonUserId (payload : JsonVal) : Option String :=
  let fromMetaCustom :=
    readNestedString payload ["meta", "custom_data", "user_id"]
  if truthyStr fromMetaCustom then fromMetaCustom
  else
    let fromDataCustom :=
      readNestedString payload ["data", "attributes", "custom_data", "user_id"]
    if truthyStr fromDataCustom then fromDataCustom
    else readNestedString payload ["data", "attributes", "user_id"]

/-- Signature check (`verifyLemonSignature`).  `hmacSha256Hex secret body`
abstracts `crypto.createHmac("sha256", secret).update(rawBody).digest("hex")`
(an oracle: the claims never need to compute a digest).  The raw body is a
byte list; the `Buffer` length/equality comparison of the two strings is
modelled on strings, which is extensionally the same test because UTF-8
encoding is injective and the hex digest is ASCII.  `secret = none` models
an unset or blank `LEMON_SQUEEZY_WEBHOOK_SECRET`; a missing or empty
header (`!signatureHeader`) fails. -/
def verifyLemonSignature (hmacSha256Hex : String → List Nat → String)
    (secret : Option String) (rawBody : List Nat)
    (signatureHeader : Option String) : Bool :=
  match secret with
  | none => true
  | some s =>
      match signatureHeader with
      | none => false
      | some header =>
          if header = "" then false
          else
            let computed := hmacSha256Hex s rawBody
            if computed.length ≠ header.length then false
            else computed == header

/-- Event names mapped to `billingStatus = "active"` (`activationEvents`). -/
def activationEvents : List String :=
  ["order_created", "subscription_created", "subscription_resumed",
   "subscription_unpaused", "subscription_payment_success"]

/-- Event names mapped to `billingStatus = "free"` (`deactivationEvents`). -/
def deactivationEvents : List String :=
  ["subscription_cancelled", "subscription_expired", "subscription_paused",
   "subscription_payment_failed"]

/-- Dispatch of a recognized event name for a user: the two sequential
`if` statements at the end of the webhook route. -/
def applyLemonEvent (cfg : Config) (now : String) (w : World)
    (eventName userId : String) : World :=
  let w1 :=
    if activationEvents.contains eventName then
      (setBillingStatus cfg now w userId .active).2
    else w
  if deactivationEvents.contains eventName then
    (setBillingStatus cfg now w1 userId .free).2
  else w1

/-- Outcome of the webhook route, one constructor per `res.status(...)`
exit (`invalidBody` is the `Buffer.isBuffer` guard, unreachable here
because the model's raw body is always a byte list). -/
inductive WebhookResponse : Type
  | invalidBody
  | invalidSignature
  | invalidJson
  | invalidFormat
  | ignoredEvent
  | processed
deriving Repr, DecidableEq

/-- HTTP status carried by each webhook outcome. -/
def WebhookResponse.status : WebhookResponse → Nat
  | .invalidBody => 400
  | .invalidSignature => 401
  | .invalidJson => 400
  | .invalidFormat => 400
  | .ignoredEvent => 200
  | .processed => 200

/-- Webhook route (`app.post("/api/billing/lemon/webhook")`), given the
parse result of the raw body (`parsed = none` models a `JSON.parse`
throw): verify the signature, require a JSON object, extract event name
and user id (both must be truthy), and apply the billing transition. -/
def lemonWebhook (cfg : Config) (hmacSha256Hex : String → List Nat → String)
    (secret : Option String) (now : String) (w : World) (rawBody : List Nat)
    (signature : Option String) (parsed : Option JsonVal) :
    WebhookResponse × World :=
  if verifyLemonSignature hmacSha256Hex secret rawBody signature = false then
    (.invalidSignature, w)
  else
    match parsed with
    | none => (.invalidJson, w)
    | some payload =>
        if isObject payload = false then (.invalidFormat, w)
        else
          let eventName := readNestedString payload ["meta", "event_name"]
          let userId := extractLemonUserId payload
          match eventName, userId with
          | some e, some u =>
              if e = "" ∨ u = "" then (.ignoredEvent, w)
              else (.processed, applyLemonEvent cfg now w e u)
          | some _, none => (.ignoredEvent, w)
          | none, _ => (.ignoredEvent, w)

/-! ## Generation endpoints -/

/-- Successful response of the Reve image API (`type ReveApiResponse`). -/
structure ReveApiResponse : Type where
  image : String
  version : String
  content_violation : Bool
  request_id : String
  credits_used : Int
  credits_remaining : Int
deriving Repr, DecidableEq

/-- Result of `createLemonCheckoutUrl` (`type LemonCheckoutResult`),
modelled at the gateway boundary the spec gives for it: a checkout URL or
a failure message with an optional upstream status. -/
inductive LemonCheckoutResult : Type
  | ok (checkoutUrl : String)
  | failed (message : String) (status : Option Nat)
deriving Repr, DecidableEq

/-- Whitespace trim over the character list, modelling
`String.prototype.trim` (structural, so concrete inputs evaluate in the
kernel; the whitespace set is ASCII, which covers every value the
backend's guards meet). -/
def jsTrim (s : String) : String :=
  ⟨((s.data.dropWhile Char.isWhitespace).reverse.dropWhile
      Char.isWhitespace).reverse⟩

/-- Character-count truncation, modelling `String.prototype.slice(0, n)`. -/
def jsSlice (s : String) (n : Nat) : String :=
  ⟨s.data.take n⟩

/-- Leading-match test over character lists, modelling
`String.prototype.startsWith`. -/
def strStartsWith (s p : String) : Bool :=
  go s.data p.data
where
  go : List Char → List Char → Bool
    | _, [] => true
    | [], _ :: _ => false
    | c :: cs, d :: ds => c = d && go cs ds

/-- Everything after the first comma, when there is one (the
`indexOf(",")` / `substring(commaIndex + 1)` pair in `normalizeBase64`). -/
def afterFirstComma : List Char → Option (List Char)
  | [] => none
  | c :: rest => if c = ',' then some rest else afterFirstComma rest

/-- Request body of the two generation routes; `none` stands for an
absent field or one of the wrong JS type (the handlers' `typeof` guards
treat those identically). -/
structure ReqBody : Type where
  clientUserId : Option String
  prompt : Option String
  referenceImageBase64 : Option String
  operation : Option String
  upscaleFactor : Option Int
deriving Repr, DecidableEq

/-- Untrusted user id extraction (`getClientUserId`): the field must be a
string whose trimmed value is nonempty. -/
def getClientUserId (body : ReqBody) : Option String :=
  match body.clientUserId with
  | none => none
  | some s =>
      let userId := jsTrim s
      if userId = "" then none else some userId

/-- Data-URL stripping (`normalizeBase64`): drop everything up to the
first comma when the trimmed value is a `data:` URL containing one. -/
def normalizeBase64 (base64OrDataUrl : String) : String :=
  let value := jsTrim base64OrDataUrl
  if strStartsWith value "data:" then
    match afterFirstComma value.data with
    | some rest => ⟨rest⟩
    | none => value
  else value

/-- Upscale-factor normalization (`sanitizeUpscaleFactor`): only 3 and 4
survive, everything else (including a missing or non-numeric field)
becomes 2. -/
def sanitizeUpscaleFactor (value : Option Int) : Int :=
  match value with
  | some 3 => 3
  | some 4 => 4
  | _ => 2

/-- Prompt normalization (`clampPrompt`): trim, then truncate to 2560
characters. -/
def clampPrompt (value : String) : String :=
  jsSlice (jsTrim value) 2560

/-- Outcome of `optimizePromptWithLongcat`. -/
structure PromptResult : Type where
  prompt : String
  optimized : Bool
  promptSource : String
deriving Repr, DecidableEq

/-- Best-effort prompt optimization (`optimizePromptWithLongcat`).
`chatResponse` is the LongCat call boundary: `.error` covers both a
non-ok HTTP status and a thrown fetch error (the function's own
`try`/`catch`); `.ok content` is `json.choices?.[0]?.message?.content`.
The `workflow`/`operation` arguments only shape the outbound chat message
and so do not influence the result beyond the oracle. -/
def optimizePromptWithLongcat (hasLongcatKey : Bool)
    (chatResponse : Except Unit (Option String)) (promptArg : String)
    (_workflow : String) (_operation : Option String) : PromptResult :=
  let originalPrompt := clampPrompt promptArg
  if hasLongcatKey = false ∨ originalPrompt = "" then
    { prompt := originalPrompt, optimized := false, promptSource := "original" }
  else
    match chatResponse with
    | .error _ =>
        { prompt := originalPrompt, optimized := false
          promptSource := "original" }
    | .ok content =>
        let chosen :=
          match content with
          | some c => if c = "" then originalPrompt else c
          | none => originalPrompt
        let optimized := clampPrompt chosen
        { prompt := if optimized = "" then originalPrompt else optimized
          optimized := (optimized != "") && (optimized != originalPrompt)
          promptSource := "longcat" }

/-- Client-facing projection of a Reve response (`toClientResponse`). -/
structure ClientImageResponse : Type where
  imageDataUrl : String
  version : String
  requestId : String
  creditsUsed : Int
  creditsRemaining : Int
  contentViolation : Bool
deriving Repr, DecidableEq

/-- Conversion from the provider payload (`toClientResponse`). -/
def toClientResponse (data : ReveApiResponse) : ClientImageResponse :=
  { imageDataUrl := "data:image/png;base64," ++ data.image
    version := data.version
    requestId := data.request_id
    creditsUsed := data.credits_used
    creditsRemaining := data.credits_remaining
    contentViolation := data.content_violation }

/-- Payload of a 200 response of the generation routes: the spread of
`toClientResponse` plus prompt provenance and the refreshed usage view. -/
structure GenSuccess : Type where
  client : ClientImageResponse
  originalPrompt : String
  optimizedPrompt : String
  promptOptimized : Bool
  promptOptimizationSource : String
  usage : UsageView
deriving Repr, DecidableEq

/-- Response of a generation route, one constructor per `res.status(...)`
exit of the handlers. -/
inductive GenResponse : Type
  | validationError (message : String)
  | quotaExceeded (message : String) (code : String)
      (checkoutUrl : Option String) (billingMessage : Option String)
      (usage : UsageView)
  | upstreamError (message : String)
  | success (payload : GenSuccess)
deriving Repr, DecidableEq

/-- HTTP status carried by each generation outcome. -/
def GenResponse.status : GenResponse → Nat
  | .validationError _ => 400
  | .quotaExceeded _ _ _ _ _ => 402
  | .upstreamError _ => 500
  | .success _ => 200

/-- Usage view carried by a generation response, when any. -/
def GenResponse.usageView : GenResponse → Option UsageView
  | .quotaExceeded _ _ _ _ usage => some usage
  | .success payload => some payload.usage
  | _ => none

/-- The 402 body both handlers build when `canGenerate` is false: message,
`code: "upgrade_required"`, a checkout URL when the gateway succeeded or a
billing message when it failed, and the current usage view. -/
def mkQuotaResponse (checkoutResult : LemonCheckoutResult)
    (usage : UsageView) : GenResponse :=
  .quotaExceeded
    ("Free plan limit reached (" ++ toString FREE_IMAGE_LIMIT
      ++ " image). Upgrade to continue generating.")
    "upgrade_required"
    (match checkoutResult with
      | .ok url => some url
      | .failed _ _ => none)
    (match checkoutResult with
      | .ok _ => none
      | .failed msg _ => some msg)
    usage

/-- Per-request boundary behaviour of the external collaborators:
`checkout` is what `createLemonCheckoutUrl` returns, `chatResponse` what
the LongCat call yields, and `reve` what `callReve` produces — `.error
msg` is the thrown `Error` (non-ok response, unparsable body, network
failure or missing `REVE_API_KEY`), caught by the route's `catch` block. -/
structure ReveEnv : Type where
  checkout : LemonCheckoutResult
  chatResponse : Except Unit (Option String)
  reve : Except String ReveApiResponse

/-- Result of running a generation route: the response, the final storage
state, and how many times the image provider was called. -/
structure GenOutcome : Type where
  response : GenResponse
  world : World
  reveCalls : Nat

/-- Route `POST /api/reve/create-remove-bg`: require a client user id,
check admission, validate the prompt, optimize it best-effort, call the
provider, and only on provider success increment usage and respond with
the refreshed view. -/
def handleCreateRemoveBg (cfg : Config) (env : ReveEnv) (now : String)
    (w : World) (body : ReqBody) : GenOutcome :=
  match getClientUserId body with
  | none => ⟨.validationError "clientUserId is required.", w, 0⟩
  | some userId =>
      let (usage, w1) := getUsageView cfg now w userId
      if usage.canGenerate = false then
        ⟨mkQuotaResponse env.checkout usage, w1, 0⟩
      else
        let prompt := jsTrim (body.prompt.getD "")
        if prompt = "" then ⟨.validationError "Prompt is required.", w1, 0⟩
        else
          let promptResult :=
            optimizePromptWithLongcat cfg.hasLongcatKey env.chatResponse
              prompt "create" (some "remove_background")
          match env.reve with
          | .error msg => ⟨.upstreamError msg, w1, 1⟩
          | .ok data =>
              let (_, w2) := markGenerationUsage cfg now w1 userId
              let (usageAfter, w3) := getUsageView cfg now w2 userId
              ⟨.success
                  { client := toClientResponse data
                    originalPrompt := prompt
                    optimizedPrompt := promptResult.prompt
                    promptOptimized := promptResult.optimized
                    promptOptimizationSource := promptResult.promptSource
                    usage := usageAfter },
                w3, 1⟩

/-- Default instruction of the enhance route when no prompt is supplied. -/
def defaultEnhancePrompt : String :=
  "Enhance this image quality while preserving natural details."

/-- Route `POST /api/reve/enhance`: same admission flow, then reference
image validation, operation normalization, best-effort prompt
optimization, provider call, and post-success usage increment.  The
upscale factor (`sanitizeUpscaleFactor`) and the `postprocessing`
directives built from it only shape the provider request body, which the
`reve` oracle absorbs. -/
def handleEnhance (cfg : Config) (env : ReveEnv) (now : String) (w : World)
    (body : ReqBody) : GenOutcome :=
  match getClientUserId body with
  | none => ⟨.validationError "clientUserId is required.", w, 0⟩
  | some userId =>
      let (usage, w1) := getUsageView cfg now w userId
      if usage.canGenerate = false then
        ⟨mkQuotaResponse env.checkout usage, w1, 0⟩
      else
        let referenceImageRaw := body.referenceImageBase64.getD ""
        if jsTrim referenceImageRaw = "" then
          ⟨.validationError "referenceImageBase64 is required.", w1, 0⟩
        else
          let operation :=
            if body.operation = some "remove_background" then
              "remove_background"
            else "upscale"
          let prompt :=
            match body.prompt with
            | some p => if jsTrim p = "" then defaultEnhancePrompt else jsTrim p
            | none => defaultEnhancePrompt
          let promptResult :=
            optimizePromptWithLongcat cfg.hasLongcatKey env.chatResponse
              prompt "enhance" (some operation)
          match env.reve with
          | .error msg => ⟨.upstreamError msg, w1, 1⟩
          | .ok data =>
              let (_, w2) := markGenerationUsage cfg now w1 userId
              let (usageAfter, w3) := getUsageView cfg now w2 userId
              ⟨.success
                  { client := toClientResponse data
                    originalPrompt := prompt
                    optimizedPrompt := promptResult.prompt
                    promptOptimized := promptResult.optimized
                    promptOptimizationSource := promptResult.promptSource
                    usage := usageAfter },
                w3, 1⟩

/-! ## Observations on worlds -/

/-- Generated count stored in the local file for a user (0 when absent,
matching the default record). -/
def localCount (w : World) (v : String) : Int :=
  ((w.localDb v).map (fun r => r.generatedCount)).getD 0

/-- Generated count stored in the remote table for a user (0 when absent,
matching the inserted default row). -/
def remoteCount (w : World) (v : String) : Int :=
  ((w.remoteDb v).map (fun r => r.generated_count)).getD 0

/-- Billing status stored in the local file for a user (`free` when
absent). -/
def localStatus (w : World) (v : String) : BillingStatus :=
  ((w.localDb v).map (fun r => r.billingStatus)).getD .free

/-- Billing status stored in the remote table for a user (`free` when
absent). -/
def remoteStatus (w : World) (v : String) : BillingStatus :=
  ((w.remoteDb v).map (fun r => r.billing_status)).getD .free

/-! ## Store-layer lemmas -/

theorem getUsageRecord_remoteUp (cfg : Config) (now : String) (w : World)
    (u : String) : (getUsageRecord cfg now w u).2.remoteUp = w.remoteUp := by
  cases hs : cfg.supabase <;> cases hr : w.remoteUp <;>
    cases hrd : w.remoteDb u <;> cases hld : w.localDb u <;>
      simp_all [getUsageRecord, getOrCreateSupabaseUsageRecord, sbSelectUsage,
        sbInsertDefaultUsage, getOrCreateLocalUsageRecord]

theorem getUsageRecord_localDb_frame (cfg : Config) (now : String) (w : World)
    (u : String) {v : String} (hv : v ≠ u) :
    (getUsageRecord cfg now w u).2.localDb v = w.localDb v := by
  cases hs : cfg.supabase <;> cases hr : w.remoteUp <;>
    cases hrd : w.remoteDb u <;> cases hld : w.localDb u <;>
      simp_all [getUsageRecord, getOrCreateSupabaseUsageRecord, sbSelectUsage,
        sbInsertDefaultUsage, getOrCreateLocalUsageRecord, setAt]

theorem getUsageRecord_remoteDb_frame (cfg : Config) (now : String)
    (w : World) (u : String) {v : String} (hv : v ≠ u) :
    (getUsageRecord cfg now w u).2.remoteDb v = w.remoteDb v := by
  cases hs : cfg.supabase <;> cases hr : w.remoteUp <;>
    cases hrd : w.remoteDb u <;> cases hld : w.localDb u <;>
      simp_all [getUsageRecord, getOrCreateSupabaseUsageRecord, sbSelectUsage,
        sbInsertDefaultUsage, getOrCreateLocalUsageRecord, setAt]

theorem getUsageRecord_localCount (cfg : Config) (now : String) (w : World)
    (u v : String) :
    localCount (getUsageRecord cfg now w u).2 v = localCount w v := by
  by_cases hv : v = u <;>
    cases hs : cfg.supabase <;> cases hr : w.remoteUp <;>
      cases hrd : w.remoteDb u <;> cases hld : w.localDb u <;>
        simp_all [localCount, getUsageRecord, getOrCreateSupabaseUsageRecord,
          sbSelectUsage, sbInsertDefaultUsage, getOrCreateLocalUsageRecord,
          setAt, defaultUsageRecord]

theorem getUsageRecord_remoteCount (cfg : Config) (now : String) (w : World)
    (u v : String) :
    remoteCount (getUsageRecord cfg now w u).2 v = remoteCount w v := by
  by_cases hv : v = u <;>
    cases hs : cfg.supabase <;> cases hr : w.remoteUp <;>
      cases hrd : w.remoteDb u <;> cases hld : w.localDb u <;>
        simp_all [remoteCount, getUsageRecord, getOrCreateSupabaseUsageRecord,
          sbSelectUsage, sbInsertDefaultUsage, getOrCreateLocalUsageRecord,
          setAt, defaultDbRow]

theorem getUsageRecord_idem (cfg : Config) (now : String) (w : World)
    (u : String) :
    getUsageRecord cfg now (getUsageRecord cfg now w u).2 u
      = getUsageRecord cfg now w u := by
  cases hs : cfg.supabase <;> cases hr : w.remoteUp <;>
    cases hrd : w.remoteDb u <;> cases hld : w.localDb u <;>
      simp_all [getUsageRecord, getOrCreateSupabaseUsageRecord, sbSelectUsage,
        sbInsertDefaultUsage, getOrCreateLocalUsageRecord, setAt]

theorem updateUsageRecord_remoteUp (cfg : Config) (now : String) (w : World)
    (u : String) (f : UsageRecord → UsageRecord) :
    (updateUsageRecord cfg now w u f).2.remoteUp = w.remoteUp := by
  cases hs : cfg.supabase <;> cases hr : w.remoteUp <;>
    cases hrd : w.remoteDb u <;> cases hld : w.localDb u <;>
      simp_all [updateUsageRecord, updateLocalUsageRecord, getUsageRecord,
        getOrCreateSupabaseUsageRecord, sbSelectUsage, sbInsertDefaultUsage,
        sbUpsertUsage, getOrCreateLocalUsageRecord, setAt]

theorem updateUsageRecord_localDb_frame (cfg : Config) (now : String)
    (w : World) (u : String) (f : UsageRecord → UsageRecord) {v : String}
    (hv : v ≠ u) :
    (updateUsageRecord cfg now w u f).2.localDb v = w.localDb v := by
  cases hs : cfg.supabase <;> cases hr : w.remoteUp <;>
    cases hrd : w.remoteDb u <;> cases hld : w.localDb u <;>
      simp_all [updateUsageRecord, updateLocalUsageRecord, getUsageRecord,
        getOrCreateSupabaseUsageRecord, sbSelectUsage, sbInsertDefaultUsage,
        sbUpsertUsage, getOrCreateLocalUsageRecord, setAt]

theorem updateUsageRecord_remoteDb_frame (cfg : Config) (now : String)
    (w : World) (u : String) (f : UsageRecord → UsageRecord) {v : String}
    (hv : v ≠ u) :
    (updateUsageRecord cfg now w u f).2.remoteDb v = w.remoteDb v := by
  cases hs : cfg.supabase <;> cases hr : w.remoteUp <;>
    cases hrd : w.remoteDb u <;> cases hld : w.localDb u <;>
      simp_all [updateUsageRecord, updateLocalUsageRecord, getUsageRecord,
        getOrCreateSupabaseUsageRecord, sbSelectUsage, sbInsertDefaultUsage,
        sbUpsertUsage, getOrCreateLocalUsageRecord, setAt]

theorem get_after_update_generatedCount (cfg : Config) (now : String)
    (w : World) (u : String) (f : UsageRecord → UsageRecord) :
    ((getUsageRecord cfg now (updateUsageRecord cfg now w u f).2 u).1
        ).generatedCount
      = (f ((getUsageRecord cfg now w u).1)).generatedCount := by
  cases hs : cfg.supabase <;> cases hr : w.remoteUp <;>
    cases hrd : w.remoteDb u <;> cases hld : w.localDb u <;>
      simp_all [updateUsageRecord, updateLocalUsageRecord, getUsageRecord,
        getOrCreateSupabaseUsageRecord, sbSelectUsage, sbInsertDefaultUsage,
        sbUpsertUsage, getOrCreateLocalUsageRecord, setAt,
        mapDbUsageRowToUsageRecord, rowOfRecord, defaultDbRow,
        defaultUsageRecord]

theorem setBillingStatus_remoteUp (cfg : Config) (now : String) (w : World)
    (u : String) (s : BillingStatus) :
    (setBillingStatus cfg now w u s).2.remoteUp = w.remoteUp :=
  updateUsageRecord_remoteUp cfg now w u _

theorem setBillingStatus_localStatus (cfg : Config) (now : String)
    (w : World) (u : String) (s : BillingStatus) (v : String) :
    localStatus (setBillingStatus cfg now w u s).2 v
      = if (cfg.supabase = false ∨ w.remoteUp = false) ∧ v = u then s
        else localStatus w v := by
  by_cases hv : v = u <;>
    cases hs : cfg.supabase <;> cases hr : w.remoteUp <;>
      cases hrd : w.remoteDb u <;> cases hld : w.localDb u <;>
        simp_all [localStatus, setBillingStatus, updateUsageRecord,
          updateLocalUsageRecord, getUsageRecord,
          getOrCreateSupabaseUsageRecord, sbSelectUsage, sbInsertDefaultUsage,
          sbUpsertUsage, getOrCreateLocalUsageRecord, setAt,
          mapDbUsageRowToUsageRecord, rowOfRecord, defaultDbRow,
          defaultUsageRecord]

theorem setBillingStatus_remoteStatus (cfg : Config) (now : String)
    (w : World) (u : String) (s : BillingStatus) (v : String) :
    remoteStatus (setBillingStatus cfg now w u s).2 v
      = if cfg.supabase = true ∧ w.remoteUp = true ∧ v = u then s
        else remoteStatus w v := by
  by_cases hv : v = u <;>
    cases hs : cfg.supabase <;> cases hr : w.remoteUp <;>
      cases hrd : w.remoteDb u <;> cases hld : w.localDb u <;>
        simp_all [remoteStatus, setBillingStatus, updateUsageRecord,
          updateLocalUsageRecord, getUsageRecord,
          getOrCreateSupabaseUsageRecord, sbSelectUsage, sbInsertDefaultUsage,
          sbUpsertUsage, getOrCreateLocalUsageRecord, setAt,
          mapDbUsageRowToUsageRecord, rowOfRecord, defaultDbRow,
          defaultUsageRecord]

theorem applyLemonEvent_remoteUp (cfg : Config) (now : String) (w : World)
    (e u : String) : (applyLemonEvent cfg now w e u).remoteUp = w.remoteUp := by
  unfold applyLemonEvent
  by_cases hA : e ∈ activationEvents <;>
    by_cases hD : e ∈ deactivationEvents <;>
      simp [hA, hD, setBillingStatus_remoteUp]

theorem applyLemonEvent_statuses_idem (cfg : Config) (now1 now2 : String)
    (w : World) (e u v : String) :
    localStatus (applyLemonEvent cfg now2 (applyLemonEvent cfg now1 w e u) e u) v
      = localStatus (applyLemonEvent cfg now1 w e u) v
    ∧ remoteStatus
        (applyLemonEvent cfg now2 (applyLemonEvent cfg now1 w e u) e u) v
      = remoteStatus (applyLemonEvent cfg now1 w e u) v := by
  unfold applyLemonEvent
  by_cases hA : e ∈ activationEvents <;>
    by_cases hD : e ∈ deactivationEvents <;>
      simp [hA, hD, setBillingStatus_localStatus, setBillingStatus_remoteStatus,
        setBillingStatus_remoteUp] <;>
      constructor <;> split_ifs <;> simp_all

/-! ## Handler-reduction lemmas -/

theorem handleCreateRemoveBg_denied (cfg : Config) (env : ReveEnv)
    (now : String) (w : World) (body : ReqBody) (userId : String)
    (hid : getClientUserId body = some userId)
    (hden : (buildUsageView (getUsageRecord cfg now w userId).1).canGenerate
        = false) :
    handleCreateRemoveBg cfg env now w body
      = ⟨mkQuotaResponse env.checkout
            (buildUsageView (getUsageRecord cfg now w userId).1),
         (getUsageRecord cfg now w userId).2, 0⟩ := by
  unfold handleCreateRemoveBg getUsageView
  rw [hid]
  simp [hden]

theorem handleEnhance_denied (cfg : Config) (env : ReveEnv) (now : String)
    (w : World) (body : ReqBody) (userId : String)
    (hid : getClientUserId body = some userId)
    (hden : (buildUsageView (getUsageRecord cfg now w userId).1).canGenerate
        = false) :
    handleEnhance cfg env now w body
      = ⟨mkQuotaResponse env.checkout
            (buildUsageView (getUsageRecord cfg now w userId).1),
         (getUsageRecord cfg now w userId).2, 0⟩ := by
  unfold handleEnhance getUsageView
  rw [hid]
  simp [hden]

theorem handleCreateRemoveBg_reveError (cfg : Config) (env : ReveEnv)
    (now : String) (w : World) (body : ReqBody) (userId msg : String)
    (hid : getClientUserId body = some userId)
    (hadm : (buildUsageView (getUsageRecord cfg now w userId).1).canGenerate
        = true)
    (hprompt : jsTrim (body.prompt.getD "") ≠ "")
    (hrv : env.reve = .error msg) :
    handleCreateRemoveBg cfg env now w body
      = ⟨.upstreamError msg, (getUsageRecord cfg now w userId).2, 1⟩ := by
  unfold handleCreateRemoveBg getUsageView
  rw [hid]
  simp [hadm, hprompt, hrv]

theorem handleEnhance_reveError (cfg : Config) (env : ReveEnv) (now : String)
    (w : World) (body : ReqBody) (userId msg : String)
    (hid : getClientUserId body = some userId)
    (hadm : (buildUsageView (getUsageRecord cfg now w userId).1).canGenerate
        = true)
    (href : jsTrim (body.referenceImageBase64.getD "") ≠ "")
    (hrv : env.reve = .error msg) :
    handleEnhance cfg env now w body
      = ⟨.upstreamError msg, (getUsageRecord cfg now w userId).2, 1⟩ := by
  unfold handleEnhance getUsageView
  rw [hid]
  simp [hadm, href, hrv]

theorem handleCreateRemoveBg_reveOk (cfg : Config) (env : ReveEnv)
    (now : String) (w : World) (body : ReqBody) (userId : String)
    (data : ReveApiResponse)
    (hid : getClientUserId body = some userId)
    (hadm : (buildUsageView (getUsageRecord cfg now w userId).1).canGenerate
        = true)
    (hprompt : jsTrim (body.prompt.getD "") ≠ "")
    (hrv : env.reve = .ok data) :
    handleCreateRemoveBg cfg env now w body
      = ⟨.success
            { client := toClientResponse data
              originalPrompt := jsTrim (body.prompt.getD "")
              optimizedPrompt :=
                (optimizePromptWithLongcat cfg.hasLongcatKey env.chatResponse
                  (jsTrim (body.prompt.getD "")) "create"
                  (some "remove_background")).prompt
              promptOptimized :=
                (optimizePromptWithLongcat cfg.hasLongcatKey env.chatResponse
                  (jsTrim (body.prompt.getD "")) "create"
                  (some "remove_background")).optimized
              promptOptimizationSource :=
                (optimizePromptWithLongcat cfg.hasLongcatKey env.chatResponse
                  (jsTrim (body.prompt.getD "")) "create"
                  (some "remove_background")).promptSource
              usage :=
                buildUsageView
                  (getUsageRecord cfg now
                    (markGenerationUsage cfg now
                      (getUsageRecord cfg now w userId).2 userId).2 userId).1 },
         (getUsageRecord cfg now
            (markGenerationUsage cfg now
              (getUsageRecord cfg now w userId).2 userId).2 userId).2,
         1⟩ := by
  unfold handleCreateRemoveBg getUsageView
  rw [hid]
  simp [hadm, hprompt, hrv]

theorem handleEnhance_reveOk (cfg : Config) (env : ReveEnv) (now : String)
    (w : World) (body : ReqBody) (userId : String) (data : ReveApiResponse)
    (hid : getClientUserId body = some userId)
    (hadm : (buildUsageView (getUsageRecord cfg now w userId).1).canGenerate
        = true)
    (href : jsTrim (body.referenceImageBase64.getD "") ≠ "")
    (hrv : env.reve = .ok data) :
    handleEnhance cfg env now w body
      = ⟨.success
            { client := toClientResponse data
              originalPrompt :=
                (match body.prompt with
                  | some p =>
                      if jsTrim p = "" then defaultEnhancePrompt else jsTrim p
                  | none => defaultEnhancePrompt)
              optimizedPrompt :=
                (optimizePromptWithLongcat cfg.hasLongcatKey env.chatResponse
                  (match body.prompt with
                    | some p =>
                        if jsTrim p = "" then defaultEnhancePrompt else jsTrim p
                    | none => defaultEnhancePrompt)
                  "enhance"
                  (some (if body.operation = some "remove_background" then
                      "remove_background" else "upscale"))).prompt
              promptOptimized :=
                (optimizePromptWithLongcat cfg.hasLongcatKey env.chatResponse
                  (match body.prompt with
                    | some p =>
                        if jsTrim p = "" then defaultEnhancePrompt else jsTrim p
                    | none => defaultEnhancePrompt)
                  "enhance"
                  (some (if body.operation = some "remove_background" then
                      "remove_background" else "upscale"))).optimized
              promptOptimizationSource :=
                (optimizePromptWithLongcat cfg.hasLongcatKey env.chatResponse
                  (match body.prompt with
                    | some p =>
                        if jsTrim p = "" then defaultEnhancePrompt else jsTrim p
                    | none => defaultEnhancePrompt)
                  "enhance"
                  (some (if body.operation = some "remove_background" then
                      "remove_background" else "upscale"))).promptSource
              usage :=
                buildUsageView
                  (getUsageRecord cfg now
                    (markGenerationUsage cfg now
                      (getUsageRecord cfg now w userId).2 userId).2 userId).1 },
         (getUsageRecord cfg now
            (markGenerationUsage cfg now
              (getUsageRecord cfg now w userId).2 userId).2 userId).2,
         1⟩ := by
  unfold handleEnhance getUsageView
  rw [hid]
  simp [hadm, href, hrv]

/-! ## Concrete fixtures used by the witnesses -/

/-- Configuration with no Supabase client and no LongCat key. -/
def cfgLocal : Config := ⟨false, false⟩

/-- Collaborator boundary where checkout is unconfigured, LongCat fails,
and the Reve call throws. -/
def envFail : ReveEnv :=
  ⟨.failed "Missing Lemon configuration." none, .error (),
   .error "Reve API call failed"⟩

/-- Collaborator boundary where everything succeeds. -/
def envOk : ReveEnv :=
  ⟨.ok "checkout-url", .error (),
   .ok ⟨"imgbytes", "v1", false, "req-1", 1, 9⟩⟩

/-- World with no records at all. -/
def emptyWorld : World := ⟨true, fun _ => none, fun _ => none⟩

/-- World where `user-1` has exhausted the free allowance locally. -/
def exhaustedWorld : World :=
  ⟨true, fun _ => none,
   fun v =>
     if v = "user-1" then
       some { userId := "user-1", generatedCount := 1, billingStatus := .free,
              lemonCustomerId := none, lemonSubscriptionId := none,
              updatedAt := "t0" }
     else none⟩

/-- Request body with a user id and prompt. -/
def bodyWithPrompt : ReqBody := ⟨some "user-1", some "a cat", none, none, none⟩

/-- Request body with a user id but no prompt and no reference image. -/
def bodyBare : ReqBody := ⟨some "user-1", none, none, none, none⟩

/-- Request body with a user id and a reference image but no prompt. -/
def bodyWithImage : ReqBody := ⟨some "user-1", none, some "QUJD", none, none⟩

/-! ## Claim theorems -/

/-- C2: admission-before-spend.  On both generation routes, when the
requesting user's view has `canGenerate = false` the handler answers with
the structured 402 quota response (carrying that view and the optional
checkout URL), the image provider is called zero times, and no stored
`generatedCount` changes (locally or remotely, for any user). -/
theorem denied_request_admission_before_spend (cfg : Config) (env : ReveEnv)
    (now : String) (w : World) (body : ReqBody) (userId : String)
    (hid : getClientUserId body = some userId)
    (hden : (buildUsageView (getUsageRecord cfg now w userId).1).canGenerate
        = false) :
    (handleCreateRemoveBg cfg env now w body).response
        = mkQuotaResponse env.checkout
            (buildUsageView (getUsageRecord cfg now w userId).1)
    ∧ (handleCreateRemoveBg cfg env now w body).response.status = 402
    ∧ (handleCreateRemoveBg cfg env now w body).reveCalls = 0
    ∧ (∀ v, localCount (handleCreateRemoveBg cfg env now w body).world v
          = localCount w v
        ∧ remoteCount (handleCreateRemoveBg cfg env now w body).world v
          = remoteCount w v)
    ∧ (handleEnhance cfg env now w body).response
        = mkQuotaResponse env.checkout
            (buildUsageView (getUsageRecord cfg now w userId).1)
    ∧ (handleEnhance cfg env now w body).response.status = 402
    ∧ (handleEnhance cfg env now w body).reveCalls = 0
    ∧ (∀ v, localCount (handleEnhance cfg env now w body).world v
          = localCount w v
        ∧ remoteCount (handleEnhance cfg env now w body).world v
          = remoteCount w v) := by
  have hc := handleCreateRemoveBg_denied cfg env now w body userId hid hden
  have he := handleEnhance_denied cfg env now w body userId hid hden
  refine ⟨by rw [hc], by rw [hc]; rfl, by rw [hc], ?_,
          by rw [he], by rw [he]; rfl, by rw [he], ?_⟩
  · intro v
    rw [hc]
    exact ⟨getUsageRecord_localCount cfg now w userId v,
           getUsageRecord_remoteCount cfg now w userId v⟩
  · intro v
    rw [he]
    exact ⟨getUsageRecord_localCount cfg now w userId v,
           getUsageRecord_remoteCount cfg now w userId v⟩

/-- Witness for C2 at a concrete denied request: the exhausted free user
gets a 402 and the provider call count is zero. -/
theorem denied_request_admission_before_spend_witness :
    getClientUserId bodyBare = some "user-1"
    ∧ (buildUsageView
        (getUsageRecord cfgLocal "t1" exhaustedWorld "user-1").1).canGenerate
        = false
    ∧ (handleCreateRemoveBg cfgLocal envFail "t1" exhaustedWorld
        bodyBare).response.status = 402
    ∧ (handleCreateRemoveBg cfgLocal envFail "t1" exhaustedWorld
        bodyBare).reveCalls = 0 :=
  ⟨by decide, by decide,
   (denied_request_admission_before_spend cfgLocal envFail "t1" exhaustedWorld
      bodyBare "user-1" (by decide) (by decide)).2.1,
   (denied_request_admission_before_spend cfgLocal envFail "t1" exhaustedWorld
      bodyBare "user-1" (by decide) (by decide)).2.2.1⟩

/-- C8: the quota check runs before the prompt / reference-image
validation: a denied request with a valid `clientUserId` gets the 402
quota response even when `prompt` (create) or `referenceImageBase64`
(enhance) is missing, never a 400 for those fields. -/
theorem admission_precedes_field_validation (cfg : Config) (env : ReveEnv)
    (now : String) (w : World) (userId : String) (body1 body2 : ReqBody)
    (hid1 : getClientUserId body1 = some userId)
    (_hprompt : body1.prompt = none)
    (hid2 : getClientUserId body2 = some userId)
    (_href : body2.referenceImageBase64 = none)
    (hden : (buildUsageView (getUsageRecord cfg now w userId).1).canGenerate
        = false) :
    (handleCreateRemoveBg cfg env now w body1).response.status = 402
    ∧ (handleEnhance cfg env now w body2).response.status = 402 := by
  constructor
  · rw [handleCreateRemoveBg_denied cfg env now w body1 userId hid1 hden]
    rfl
  · rw [handleEnhance_denied cfg env now w body2 userId hid2 hden]
    rfl

/-- Witness for C8: the exhausted user with a bare body (no prompt, no
reference image) still gets 402 on both routes. -/
theorem admission_precedes_field_validation_witness :
    (handleCreateRemoveBg cfgLocal envFail "t1" exhaustedWorld
        bodyBare).response.status = 402
    ∧ (handleEnhance cfgLocal envFail "t1" exhaustedWorld
        bodyBare).response.status = 402 :=
  ⟨(admission_precedes_field_validation cfgLocal envFail "t1" exhaustedWorld
      "user-1" bodyBare bodyBare (by decide) rfl (by decide) rfl (by decide)).1,
   (admission_precedes_field_validation cfgLocal envFail "t1" exhaustedWorld
      "user-1" bodyBare bodyBare (by decide) rfl (by decide) rfl (by decide)).2⟩

/-- C3: for a quota-approved request that reaches the provider call, a failed
provider call yields a 500 upstream error and leaves every stored
`generatedCount` (local and remote, every user) unchanged; a successful
call makes the handler increment the requesting user's count by exactly
one, touch no other user, and return the refreshed usage view (whose
count is the admission-time count plus one). -/
theorem provider_failure_leaves_usage_untouched (cfg : Config) (env : ReveEnv)
    (now : String) (w : World) (body : ReqBody) (userId : String)
    (hid : getClientUserId body = some userId)
    (hadm : (buildUsageView (getUsageRecord cfg now w userId).1).canGenerate
        = true) :
    (jsTrim (body.prompt.getD "") ≠ "" →
      (∀ msg, env.reve = .error msg →
          (handleCreateRemoveBg cfg env now w body).response
              = .upstreamError msg
          ∧ (handleCreateRemoveBg cfg env now w body).response.status = 500
          ∧ (∀ v, localCount (handleCreateRemoveBg cfg env now w body).world v
                = localCount w v
              ∧ remoteCount (handleCreateRemoveBg cfg env now w body).world v
                = remoteCount w v))
      ∧ (∀ data, env.reve = .ok data →
          ∃ payload,
            (handleCreateRemoveBg cfg env now w body).response
                = .success payload
            ∧ payload.usage.generatedCount
                = ((getUsageRecord cfg now w userId).1).generatedCount + 1
            ∧ (handleCreateRemoveBg cfg env now w body).reveCalls = 1
            ∧ (∀ v, v ≠ userId →
                localCount (handleCreateRemoveBg cfg env now w body).world v
                  = localCount w v
                ∧ remoteCount (handleCreateRemoveBg cfg env now w body).world v
                  = remoteCount w v)))
    ∧ (jsTrim (body.referenceImageBase64.getD "") ≠ "" →
      (∀ msg, env.reve = .error msg →
          (handleEnhance cfg env now w body).response = .upstreamError msg
          ∧ (handleEnhance cfg env now w body).response.status = 500
          ∧ (∀ v, localCount (handleEnhance cfg env now w body).world v
                = localCount w v
              ∧ remoteCount (handleEnhance cfg env now w body).world v
                = remoteCount w v))
      ∧ (∀ data, env.reve = .ok data →
          ∃ payload,
            (handleEnhance cfg env now w body).response = .success payload
            ∧ payload.usage.generatedCount
                = ((getUsageRecord cfg now w userId).1).generatedCount + 1
            ∧ (handleEnhance cfg env now w body).reveCalls = 1
            ∧ (∀ v, v ≠ userId →
                localCount (handleEnhance cfg env now w body).world v
                  = localCount w v
                ∧ remoteCount (handleEnhance cfg env now w body).world v
                  = remoteCount w v))) := by
  constructor
  · intro hprompt
    constructor
    · intro msg hrv
      rw [handleCreateRemoveBg_reveError cfg env now w body userId msg hid
        hadm hprompt hrv]
      exact ⟨rfl, rfl, fun v =>
        ⟨getUsageRecord_localCount cfg now w userId v,
         getUsageRecord_remoteCount cfg now w userId v⟩⟩
    · intro data hrv
      rw [handleCreateRemoveBg_reveOk cfg env now w body userId data hid hadm
        hprompt hrv]
      refine ⟨_, rfl, ?_, rfl, ?_⟩
      · show (getUsageRecord cfg now
            (updateUsageRecord cfg now (getUsageRecord cfg now w userId).2
              userId (fun record =>
                { record with generatedCount := record.generatedCount + 1 })).2
            userId).1.generatedCount
          = ((getUsageRecord cfg now w userId).1).generatedCount + 1
        rw [get_after_update_generatedCount cfg now
            ((getUsageRecord cfg now w userId).2) userId
            (fun record =>
              { record with generatedCount := record.generatedCount + 1 }),
          getUsageRecord_idem cfg now w userId]
      · intro v hv
        constructor
        · show localCount (getUsageRecord cfg now
              (updateUsageRecord cfg now (getUsageRecord cfg now w userId).2
                userId (fun record =>
                  { record with
                    generatedCount := record.generatedCount + 1 })).2
              userId).2 v = localCount w v
          rw [getUsageRecord_localCount]
          calc localCount (updateUsageRecord cfg now
                  (getUsageRecord cfg now w userId).2 userId
                  (fun record =>
                    { record with
                      generatedCount := record.generatedCount + 1 })).2 v
              = localCount (getUsageRecord cfg now w userId).2 v := by
                unfold localCount
                rw [updateUsageRecord_localDb_frame cfg now
                  ((getUsageRecord cfg now w userId).2) userId _ hv]
            _ = localCount w v := getUsageRecord_localCount cfg now w userId v
        · show remoteCount (getUsageRecord cfg now
              (updateUsageRecord cfg now (getUsageRecord cfg now w userId).2
                userId (fun record =>
                  { record with
                    generatedCount := record.generatedCount + 1 })).2
              userId).2 v = remoteCount w v
          rw [getUsageRecord_remoteCount]
          calc remoteCount (updateUsageRecord cfg now
                  (getUsageRecord cfg now w userId).2 userId
                  (fun record =>
                    { record with
                      generatedCount := record.generatedCount + 1 })).2 v
              = remoteCount (getUsageRecord cfg now w userId).2 v := by
                unfold remoteCount
                rw [updateUsageRecord_remoteDb_frame cfg now
                  ((getUsageRecord cfg now w userId).2) userId _ hv]
            _ = remoteCount w v := getUsageRecord_remoteCount cfg now w userId v
  · intro href
    constructor
    · intro msg hrv
      rw [handleEnhance_reveError cfg env now w body userId msg hid hadm
        href hrv]
      exact ⟨rfl, rfl, fun v =>
        ⟨getUsageRecord_localCount cfg now w userId v,
         getUsageRecord_remoteCount cfg now w userId v⟩⟩
    · intro data hrv
      rw [handleEnhance_reveOk cfg env now w body userId data hid hadm
        href hrv]
      refine ⟨_, rfl, ?_, rfl, ?_⟩
      · show (getUsageRecord cfg now
            (updateUsageRecord cfg now (getUsageRecord cfg now w userId).2
              userId (fun record =>
                { record with generatedCount := record.generatedCount + 1 })).2
            userId).1.generatedCount
          = ((getUsageRecord cfg now w userId).1).generatedCount + 1
        rw [get_after_update_generatedCount cfg now
            ((getUsageRecord cfg now w userId).2) userId
            (fun record =>
              { record with generatedCount := record.generatedCount + 1 }),
          getUsageRecord_idem cfg now w userId]
      · intro v hv
        constructor
        · show localCount (getUsageRecord cfg now
              (updateUsageRecord cfg now (getUsageRecord cfg now w userId).2
                userId (fun record =>
                  { record with
                    generatedCount := record.generatedCount + 1 })).2
              userId).2 v = localCount w v
          rw [getUsageRecord_localCount]
          calc localCount (updateUsageRecord cfg now
                  (getUsageRecord cfg now w userId).2 userId
                  (fun record =>
                    { record with
                      generatedCount := record.generatedCount + 1 })).2 v
              = localCount (getUsageRecord cfg now w userId).2 v := by
                unfold localCount
                rw [updateUsageRecord_localDb_frame cfg now
                  ((getUsageRecord cfg now w userId).2) userId _ hv]
            _ = localCount w v := getUsageRecord_localCount cfg now w userId v
        · show remoteCount (getUsageRecord cfg now
              (updateUsageRecord cfg now (getUsageRecord cfg now w userId).2
                userId (fun record =>
                  { record with
                    generatedCount := record.generatedCount + 1 })).2
              userId).2 v = remoteCount w v
          rw [getUsageRecord_remoteCount]
          calc remoteCount (updateUsageRecord cfg now
                  (getUsageRecord cfg now w userId).2 userId
                  (fun record =>
                    { record with
                      generatedCount := record.generatedCount + 1 })).2 v
              = remoteCount (getUsageRecord cfg now w userId).2 v := by
                unfold remoteCount
                rw [updateUsageRecord_remoteDb_frame cfg now
                  ((getUsageRecord cfg now w userId).2) userId _ hv]
            _ = remoteCount w v := getUsageRecord_remoteCount cfg now w userId v

/-- Witness for C3 at concrete requests against a fresh user: a throwing
provider yields the upstream error with no stored change observable in
the response, while a successful provider yields a success payload whose
refreshed view shows exactly one more generation. -/
theorem provider_failure_leaves_usage_untouched_witness :
    (handleCreateRemoveBg cfgLocal envFail "t1" emptyWorld
        bodyWithPrompt).response = .upstreamError "Reve API call failed"
    ∧ ∃ payload,
        (handleCreateRemoveBg cfgLocal envOk "t1" emptyWorld
            bodyWithPrompt).response = .success payload
        ∧ payload.usage.generatedCount
            = (getUsageRecord cfgLocal "t1" emptyWorld "user-1"
                ).1.generatedCount + 1 :=
  ⟨(((provider_failure_leaves_usage_untouched cfgLocal envFail "t1" emptyWorld
        bodyWithPrompt "user-1" (by decide) (by decide)).1 (by decide)).1
      "Reve API call failed" rfl).1,
   by
    obtain ⟨payload, h1, h2, -, -⟩ :=
      ((provider_failure_leaves_usage_untouched cfgLocal envOk "t1" emptyWorld
          bodyWithPrompt "user-1" (by decide) (by decide)).1 (by decide)).2
        (envOk.reve.toOption.getD ⟨"imgbytes", "v1", false, "req-1", 1, 9⟩) rfl
    exact ⟨payload, h1, h2⟩⟩

/-- C4: webhook idempotence.  Delivering the same webhook request twice
(same raw body, signature and payload; possibly different delivery times)
leaves exactly the stored billing statuses that a single delivery
produces, for every user and in both backends: the status is set to a
fixed value, never accumulated. -/
theorem lemonWebhook_statuses_idem (cfg : Config)
    (hmacSha256Hex : String → List Nat → String) (secret : Option String)
    (now1 now2 : String) (w : World) (rawBody : List Nat)
    (signature : Option String) (parsed : Option JsonVal) (v : String) :
    localStatus (lemonWebhook cfg hmacSha256Hex secret now2
        (lemonWebhook cfg hmacSha256Hex secret now1 w rawBody signature
          parsed).2 rawBody signature parsed).2 v
      = localStatus (lemonWebhook cfg hmacSha256Hex secret now1 w rawBody
          signature parsed).2 v
    ∧ remoteStatus (lemonWebhook cfg hmacSha256Hex secret now2
        (lemonWebhook cfg hmacSha256Hex secret now1 w rawBody signature
          parsed).2 rawBody signature parsed).2 v
      = remoteStatus (lemonWebhook cfg hmacSha256Hex secret now1 w rawBody
          signature parsed).2 v := by
  unfold lemonWebhook
  cases hver : verifyLemonSignature hmacSha256Hex secret rawBody signature
  · simp
  · cases parsed with
    | none => simp [hver]
    | some payload =>
        cases hobj : isObject payload
        · simp [hver, hobj]
        · cases hE : readNestedString payload ["meta", "event_name"] with
          | none => simp [hver, hobj, hE]
          | some e =>
              cases hU : extractLemonUserId payload with
              | none => simp [hver, hobj, hE, hU]
              | some u =>
                  by_cases he : e = "" ∨ u = ""
                  · simp [hver, hobj, hE, hU, he]
                  · simp only [hver, hobj, hE, hU, he, Bool.false_eq_true,
                      if_false, ite_false, ite_true, if_true]
                    simp [he]
                    exact applyLemonEvent_statuses_idem cfg now1 now2 w e u v

/-- Concrete 64-character string standing in for a hex digest. -/
def hex64 : String := ⟨List.replicate 64 'a'⟩

/-- C5: with no secret configured, `verifyLemonSignature` accepts
everything; with a secret configured it accepts exactly a present header
equal (hence equal in byte length) to the hex HMAC-SHA256 digest of the
raw body — any missing header, length mismatch, or content mismatch is
rejected.  The digest oracle is constrained to produce 64-character hex
strings, as HMAC-SHA256 does.  (The constant-time property of
`crypto.timingSafeEqual` is a timing property, outside this functional
model; its input/output behaviour on equal-length buffers is equality,
which is what is verified here.) -/
theorem verifyLemonSignature_spec (hmacSha256Hex : String → List Nat → String)
    (hdigest : ∀ s b, (hmacSha256Hex s b).length = 64) :
    (∀ rawBody signatureHeader,
        verifyLemonSignature hmacSha256Hex none rawBody signatureHeader
          = true)
    ∧ (∀ s rawBody signatureHeader,
        verifyLemonSignature hmacSha256Hex (some s) rawBody signatureHeader
            = true
          ↔ signatureHeader = some (hmacSha256Hex s rawBody)) := by
  constructor
  · intro rawBody signatureHeader
    rfl
  · intro s rawBody signatureHeader
    constructor
    · intro h
      unfold verifyLemonSignature at h
      cases signatureHeader with
      | none => exact absurd h (by simp)
      | some header =>
          by_cases hh : header = ""
          · simp [hh] at h
          · simp only [hh, if_false, ite_false] at h
            split at h
            · exact absurd h (by simp)
            · simp at h
              rw [h]
    · intro h
      subst h
      have hne : hmacSha256Hex s rawBody ≠ "" := by
        intro hcon
        have hlen := hdigest s rawBody
        rw [hcon] at hlen
        simp [String.length] at hlen
      unfold verifyLemonSignature
      simp [hne]

/-- Witness for C5: the no-secret mode accepts a signature-less request,
and with a secret the digest itself verifies. -/
theorem verifyLemonSignature_spec_witness :
    verifyLemonSignature (fun _ _ => hex64) none [7] none = true
    ∧ verifyLemonSignature (fun _ _ => hex64) (some "secret") [7] (some hex64)
        = true :=
  ⟨(verifyLemonSignature_spec (fun _ _ => hex64) (fun _ _ => rfl)).1 [7] none,
   ((verifyLemonSignature_spec (fun _ _ => hex64) (fun _ _ => rfl)).2
      "secret" [7] (some hex64)).mpr rfl⟩

/-- Payload whose first probed location holds the empty string and whose
second holds a non-empty user id. -/
def c6Payload : JsonVal :=
  .obj [("meta", .obj [("custom_data", .obj [("user_id", .str "")])]),
        ("data", .obj [("attributes",
            .obj [("custom_data", .obj [("user_id", .str "user-b")])])])]

/-- Counterexample to C6 as stated: the first probed location holds a
present string (the empty string), yet the extractor does not return it —
the JavaScript truthiness test skips empty strings, so the second
location wins. -/
theorem extractLemonUserId_counterexample :
    readNestedString c6Payload ["meta", "custom_data", "user_id"] = some ""
    ∧ extractLemonUserId c6Payload = some "user-b"
    ∧ extractLemonUserId c6Payload ≠ some "" :=
  ⟨rfl, rfl, by decide⟩

/-- C6 (amended): the probe order is `meta.custom_data.user_id`, then
`data.attributes.custom_data.user_id`, then `data.attributes.user_id`;
for the first two locations the first present NON-EMPTY string wins,
while the third location's result (a string or `null`, even the empty
string) is returned as is; if no location holds a string the result is
`null`, and the webhook then accepts the event (200) as ignored, mutating
no record. -/
theorem extractLemonUserId_amended (payload : JsonVal) :
    (∀ s, readNestedString payload ["meta", "custom_data", "user_id"]
          = some s → s ≠ "" → extractLemonUserId payload = some s)
    ∧ (truthyStr (readNestedString payload
          ["meta", "custom_data", "user_id"]) = false →
        ∀ s, readNestedString payload
            ["data", "attributes", "custom_data", "user_id"] = some s →
          s ≠ "" → extractLemonUserId payload = some s)
    ∧ (truthyStr (readNestedString payload
          ["meta", "custom_data", "user_id"]) = false →
        truthyStr (readNestedString payload
          ["data", "attributes", "custom_data", "user_id"]) = false →
        extractLemonUserId payload
          = readNestedString payload ["data", "attributes", "user_id"])
    ∧ (∀ cfg hmacSha256Hex secret now w rawBody signature,
        verifyLemonSignature hmacSha256Hex secret rawBody signature = true →
        isObject payload = true →
        extractLemonUserId payload = none →
        lemonWebhook cfg hmacSha256Hex secret now w rawBody signature
            (some payload)
          = (.ignoredEvent, w)) := by
  refine ⟨?_, ?_, ?_, ?_⟩
  · intro s hs hne
    simp [extractLemonUserId, hs, truthyStr, hne]
  · intro h1 s hs hne
    unfold extractLemonUserId
    simp only [h1, hs]
    simp [truthyStr, hne]
  · intro h1 h2
    simp [extractLemonUserId, h1, h2]
  · intro cfg hmacSha256Hex secret now w rawBody signature hver hobj hU
    unfold lemonWebhook
    cases hE : readNestedString payload ["meta", "event_name"] <;>
      simp [hver, hobj, hE, hU]

/-- Payload whose first probed location holds a non-empty user id. -/
def c6GoodPayload : JsonVal :=
  .obj [("meta", .obj [("custom_data", .obj [("user_id", .str "user-a")])])]

/-- Witness for C6 (amended) at a concrete payload: a non-empty first
location wins. -/
theorem extractLemonUserId_amended_witness :
    extractLemonUserId c6GoodPayload = some "user-a" :=
  (extractLemonUserId_amended c6GoodPayload).1 "user-a" rfl (by decide)

/-- Array property lookup misses every key that is neither `length` nor a
canonical index. -/
theorem jsGetProp_arr_nonindex (elems : List JsonVal) (key : String)
    (hk : key ≠ "length") (hn : parseNatChars key.data = none) :
    jsGetProp (.arr elems) key = none := by
  simp only [jsGetProp]
  rw [if_neg hk, hn]

/-- Counterexample to C9 as stated: an empty JSON array is valid JSON and
is not a JSON object, yet the handler (with signature verification
passing) answers 200 ignored rather than 400, because the JavaScript
object test `typeof value === "object"` also accepts arrays. -/
theorem webhook_nonobject_counterexample :
    (lemonWebhook cfgLocal (fun _ _ => hex64) none "t1" emptyWorld [] none
        (some (.arr []))).1.status = 200
    ∧ (lemonWebhook cfgLocal (fun _ _ => hex64) none "t1" emptyWorld [] none
        (some (.arr []))).2 = emptyWorld :=
  ⟨rfl, rfl⟩

/-- C9 (amended): a verified webhook whose body parses as valid JSON that
is neither an object nor an array (a string, number, boolean, or `null`)
gets a 400 format error and mutates no record; an array payload passes
the object test and is accepted as ignored (200), also mutating no
record. -/
theorem webhook_nonobject_payload (cfg : Config)
    (hmacSha256Hex : String → List Nat → String) (secret : Option String)
    (now : String) (w : World) (rawBody : List Nat)
    (signature : Option String) (payload : JsonVal)
    (hver : verifyLemonSignature hmacSha256Hex secret rawBody signature
        = true)
    (hobj : isObject payload = false) :
    lemonWebhook cfg hmacSha256Hex secret now w rawBody signature
        (some payload)
      = (.invalidFormat, w)
    ∧ (lemonWebhook cfg hmacSha256Hex secret now w rawBody signature
        (some payload)).1.status = 400
    ∧ (∀ elems,
        lemonWebhook cfg hmacSha256Hex secret now w rawBody signature
            (some (.arr elems))
          = (.ignoredEvent, w)) := by
  have hmain : lemonWebhook cfg hmacSha256Hex secret now w rawBody signature
      (some payload) = (.invalidFormat, w) := by
    unfold lemonWebhook
    simp [hver, hobj]
  refine ⟨hmain, by rw [hmain]; rfl, ?_⟩
  intro elems
  have hm : jsGetProp (.arr elems) "meta" = none :=
    jsGetProp_arr_nonindex elems "meta" (by decide) (by decide)
  have hd : jsGetProp (.arr elems) "data" = none :=
    jsGetProp_arr_nonindex elems "data" (by decide) (by decide)
  unfold lemonWebhook
  simp [hver, isObject, readNestedString, extractLemonUserId, truthyStr,
    hm, hd]

/-- Witness for C9 (amended): a JSON string payload gets the 400 format
error and the store is untouched. -/
theorem webhook_nonobject_payload_witness :
    lemonWebhook cfgLocal (fun _ _ => hex64) none "t1" emptyWorld [] none
        (some (.str "hello"))
      = (.invalidFormat, emptyWorld) :=
  (webhook_nonobject_payload cfgLocal (fun _ _ => hex64) none "t1" emptyWorld
    [] none (.str "hello") rfl rfl).1

/-- Configuration with a Supabase client constructed. -/
def cfgRemote : Config := ⟨true, false⟩

/-- World whose remote store is unreachable and whose stores are empty. -/
def wDown : World := ⟨false, fun _ => none, fun _ => none⟩

/-- C7: fallback transparency.  When every remote operation throws
(`remoteUp = false`), `getUsageRecord` and `updateUsageRecord` coincide
with the local-file backend — same returned record, same local store,
remote store untouched — and on first access the well-formed default
record (`generatedCount = 0`, `billingStatus = free`) is created,
persisted locally, and returned.  Both operations are total here, so no
remote failure ever reaches the caller as an error. -/
theorem remote_failure_transparent_fallback (cfg : Config) (now : String)
    (w : World) (u : String) (f : UsageRecord → UsageRecord)
    (hdown : w.remoteUp = false) :
    (getUsageRecord cfg now w u).1
        = (getOrCreateLocalUsageRecord w.localDb now u).1
    ∧ (∀ v, (getUsageRecord cfg now w u).2.localDb v
          = (getOrCreateLocalUsageRecord w.localDb now u).2 v)
    ∧ (∀ v, (getUsageRecord cfg now w u).2.remoteDb v = w.remoteDb v)
    ∧ (updateUsageRecord cfg now w u f).1
        = (updateLocalUsageRecord w.localDb now u f).1
    ∧ (∀ v, (updateUsageRecord cfg now w u f).2.localDb v
          = (updateLocalUsageRecord w.localDb now u f).2 v)
    ∧ (∀ v, (updateUsageRecord cfg now w u f).2.remoteDb v = w.remoteDb v)
    ∧ (w.localDb u = none →
        (getUsageRecord cfg now w u).1 = defaultUsageRecord u now
        ∧ (getUsageRecord cfg now w u).2.localDb u
            = some (defaultUsageRecord u now)) := by
  refine ⟨?_, ?_, ?_, ?_, ?_, ?_, ?_⟩
  · cases hs : cfg.supabase <;> cases hld : w.localDb u <;>
      simp_all [getUsageRecord, getOrCreateSupabaseUsageRecord, sbSelectUsage,
        getOrCreateLocalUsageRecord, setAt]
  · intro v
    cases hs : cfg.supabase <;> cases hld : w.localDb u <;>
      simp_all [getUsageRecord, getOrCreateSupabaseUsageRecord, sbSelectUsage,
        getOrCreateLocalUsageRecord, setAt]
  · intro v
    cases hs : cfg.supabase <;> cases hld : w.localDb u <;>
      simp_all [getUsageRecord, getOrCreateSupabaseUsageRecord, sbSelectUsage,
        getOrCreateLocalUsageRecord, setAt]
  · cases hs : cfg.supabase <;> cases hld : w.localDb u <;>
      simp_all [updateUsageRecord, updateLocalUsageRecord, getUsageRecord,
        getOrCreateSupabaseUsageRecord, sbSelectUsage, sbUpsertUsage,
        getOrCreateLocalUsageRecord, setAt]
  · intro v
    by_cases hv : v = u <;>
      cases hs : cfg.supabase <;> cases hld : w.localDb u <;>
        simp_all [updateUsageRecord, updateLocalUsageRecord, getUsageRecord,
          getOrCreateSupabaseUsageRecord, sbSelectUsage, sbUpsertUsage,
          getOrCreateLocalUsageRecord, setAt]
  · intro v
    cases hs : cfg.supabase <;> cases hld : w.localDb u <;>
      simp_all [updateUsageRecord, updateLocalUsageRecord, getUsageRecord,
        getOrCreateSupabaseUsageRecord, sbSelectUsage, sbUpsertUsage,
        getOrCreateLocalUsageRecord, setAt]
  · intro hnone
    cases hs : cfg.supabase <;>
      simp_all [getUsageRecord, getOrCreateSupabaseUsageRecord, sbSelectUsage,
        getOrCreateLocalUsageRecord, setAt]

/-- Witness for C7 with the remote store down and no local record: the
default record is served and persisted locally. -/
theorem remote_failure_transparent_fallback_witness :
    wDown.remoteUp = false
    ∧ wDown.localDb "user-1" = none
    ∧ (getUsageRecord cfgRemote "t1" wDown "user-1").1
        = defaultUsageRecord "user-1" "t1"
    ∧ (getUsageRecord cfgRemote "t1" wDown "user-1").2.localDb "user-1"
        = some (defaultUsageRecord "user-1" "t1") :=
  ⟨rfl, rfl,
   ((remote_failure_transparent_fallback cfgRemote "t1" wDown "user-1" id
      rfl).2.2.2.2.2.2 rfl).1,
   ((remote_failure_transparent_fallback cfgRemote "t1" wDown "user-1" id
      rfl).2.2.2.2.2.2 rfl).2⟩

/-- C10: every update path (local-file direct, and the full
`updateUsageRecord` in any backend configuration) overwrites `updatedAt`
with the current timestamp after running the mutator; consequently a
no-op mutator (such as re-applying a webhook status the record already
has) changes nothing but `updatedAt`.  The remote branch rewrites the
`user_id` column from the key, so the frame property there assumes the
stored row is keyed consistently (which every write path guarantees). -/
theorem update_overwrites_updatedAt (cfg : Config) (now : String) (w : World)
    (u : String) (f : UsageRecord → UsageRecord)
    (store : String → Option UsageRecord)
    (hwf : ∀ r, w.remoteDb u = some r → r.user_id = u) :
    (updateLocalUsageRecord store now u f).1.updatedAt = now
    ∧ (updateUsageRecord cfg now w u f).1.updatedAt = now
    ∧ (f ((store u).getD (defaultUsageRecord u now))
          = (store u).getD (defaultUsageRecord u now) →
        (updateLocalUsageRecord store now u f).1
          = { (store u).getD (defaultUsageRecord u now) with
              updatedAt := now })
    ∧ (f ((getUsageRecord cfg now w u).1) = (getUsageRecord cfg now w u).1 →
        (updateUsageRecord cfg now w u f).1
          = { (getUsageRecord cfg now w u).1 with updatedAt := now }) := by
  refine ⟨rfl, ?_, ?_, ?_⟩
  · cases hs : cfg.supabase <;> cases hr : w.remoteUp <;>
      cases hrd : w.remoteDb u <;> cases hld : w.localDb u <;>
        simp_all [updateUsageRecord, updateLocalUsageRecord, getUsageRecord,
          getOrCreateSupabaseUsageRecord, sbSelectUsage, sbInsertDefaultUsage,
          sbUpsertUsage, getOrCreateLocalUsageRecord, setAt,
          mapDbUsageRowToUsageRecord, rowOfRecord, defaultDbRow,
          defaultUsageRecord]
  · intro hnoop
    simp [updateLocalUsageRecord, hnoop]
  · intro hnoop
    cases hs : cfg.supabase <;> cases hr : w.remoteUp <;>
      cases hrd : w.remoteDb u <;> cases hld : w.localDb u <;>
        simp_all [updateUsageRecord, updateLocalUsageRecord, getUsageRecord,
          getOrCreateSupabaseUsageRecord, sbSelectUsage, sbInsertDefaultUsage,
          sbUpsertUsage, getOrCreateLocalUsageRecord, setAt,
          mapDbUsageRowToUsageRecord, rowOfRecord, defaultDbRow,
          defaultUsageRecord]

/-- Witness for C10 with the identity mutator on an empty store: the
result is the default record restamped. -/
theorem update_overwrites_updatedAt_witness :
    (updateLocalUsageRecord (fun _ => none) "t2" "user-1" id).1.updatedAt
        = "t2"
    ∧ (updateUsageRecord cfgLocal "t2" wDown "user-1" id).1.updatedAt
        = "t2" :=
  ⟨(update_overwrites_updatedAt cfgLocal "t2" wDown "user-1" id
      (fun _ => none) (fun _ h => Option.noConfusion h)).1,
   (update_overwrites_updatedAt cfgLocal "t2" wDown "user-1" id
      (fun _ => none) (fun _ h => Option.noConfusion h)).2.1⟩
